import Mathlib

/-!
Verification development for the PPO-continuous learner
(`stoix/systems/ppo/anakin/ff_ppo_continuous4.py`).

The learner pipeline is shallowly embedded over rational scalars.  The
function approximators (actor / critic / Q networks), the optimizer
transforms, the PRNG primitives and the vectorized environment are
collaborators outside the core; they are carried as abstract fields of a
context `Ctx`, exactly mirroring how `get_learner_fn` receives
`apply_fns` and `update_fns` as parameters.

Automatic differentiation is represented by abstract gradient operators
(`grad_actor`, `grad_critic`, `grad_q`), one per parameter group, and
`jax.lax.stop_gradient` is embedded with a two-slot convention: each loss
function takes the differentiated copy of its parameter group and a
frozen (stop-gradient) copy.  Sub-expressions under `stop_gradient` read
the frozen copy, so the function handed to the gradient operator has the
stop-gradient values as constants; the runtime loss value is obtained by
passing the same parameters in both slots.

`jax.lax.pmean` collectives are embedded per replica as abstract
structure-preserving operators (`pmean_batch_*`, `pmean_device_*`,
`pleaf_batch`, `pleaf_device`); the replicated two-axis semantics of the
reduction itself is modelled separately (`two_stage_reduce`).
-/

/-- The fixed entropy-temperature constant (`alpha = 0.1` in the source). -/
def alpha : ℚ := 1 / 10

/-- An action distribution as exposed by the actor network: supports
keyed sampling, log-probability and keyed entropy. -/
structure PolicyDist (Key Act : Type) where
  sample : Key → Act
  log_prob : Act → ℚ
  entropy : Key → ℚ

/-- One environment timestep as exposed by the vectorized environment:
`discount = 0` signals episode end, `is_last` is the episode-end
predicate (`timestep.last()`). -/
structure TimeStep (Obs Info : Type) where
  observation : Obs
  reward : ℚ
  discount : ℚ
  is_last : Bool
  info : Info

/-- Transition tuple for PPO (the `PPOTransition` NamedTuple redefined
at the top of the source file, with a `next_obs` field). -/
structure PPOTransition (Obs Act Info : Type) where
  done : Bool
  truncated : Bool
  action : Act
  value : ℚ
  reward : ℚ
  log_prob : ℚ
  obs : Obs
  next_obs : Obs
  info : Info

instance {Obs Act Info : Type} [Inhabited Obs] [Inhabited Act] [Inhabited Info] :
    Inhabited (PPOTransition Obs Act Info) :=
  ⟨⟨false, false, default, 0, 0, 0, default, default, default⟩⟩

/-- The three independently owned parameter groups. -/
structure ActorCriticQParams (AP CP QP : Type) where
  actor_params : AP
  critic_params : CP
  q_params : QP

/-- One optimizer state per parameter group. -/
structure ActorCriticQOptStates (OA OC OQ : Type) where
  actor_opt_state : OA
  critic_opt_state : OC
  q_opt_state : OQ

/-- The learner state threaded through every update step. -/
structure OnPolicyLearnerState (Obs Act AP CP QP OA OC OQ Key EnvState Info : Type) where
  params : ActorCriticQParams AP CP QP
  opt_states : ActorCriticQOptStates OA OC OQ
  key : Key
  env_state : List EnvState
  last_timestep : List (TimeStep Obs Info)

/-- The configuration constants the learner reads
(`config.system.rollout_length`, `config.arch.num_envs`,
`config.system.epochs`, `config.system.gamma`, `config.system.vf_coef`,
`config.system.clip_eps`). -/
structure Config where
  rollout_length : ℕ
  num_envs : ℕ
  epochs : ℕ
  gamma : ℚ
  vf_coef : ℚ
  clip_eps : ℚ

/-- The abstract collaborators of the learner: network apply functions,
optimizer transforms, gradient operators, PRNG primitives, the
`ppo_clip_loss` helper and the environment step, plus per-replica views
of the `pmean` collectives. -/
structure Ctx (Obs Act AP CP QP OA OC OQ Key EnvState Info : Type) where
  actor_apply : AP → Obs → PolicyDist Key Act
  critic_apply : CP → Obs → ℚ
  q_apply : QP → Obs → Act → ℚ
  actor_update_fn : AP → OA → AP × OA
  critic_update_fn : CP → OC → CP × OC
  q_update_fn : QP → OQ → QP × OQ
  apply_updates_actor : AP → AP → AP
  apply_updates_critic : CP → CP → CP
  apply_updates_q : QP → QP → QP
  grad_actor : (AP → ℚ) → AP → AP
  grad_critic : (CP → ℚ) → CP → CP
  grad_q : (QP → ℚ) → QP → QP
  split2 : Key → Key × Key
  split4 : Key → Key × Key × Key × Key
  splitN : Key → ℕ → List Key
  randint : Key → ℕ → ℕ → List ℕ
  ppo_clip_loss : List ℚ → List ℚ → List ℚ → ℚ → ℚ
  pmean_batch_actor : AP → AP
  pmean_device_actor : AP → AP
  pmean_batch_critic : CP → CP
  pmean_device_critic : CP → CP
  pmean_batch_q : QP → QP
  pmean_device_q : QP → QP
  pleaf_batch : String → ℚ → ℚ
  pleaf_device : String → ℚ → ℚ
  env_step : EnvState → Act → EnvState × TimeStep Obs Info

/-- `jnp.mean` of a vector. -/
def mean (xs : List ℚ) : ℚ := xs.sum / (xs.length : ℚ)

/-- Implicit boolean-to-float cast used by `1.0 - batch.done`. -/
def b2q (b : Bool) : ℚ := if b then 1 else 0

/-- Elementwise vector addition. -/
def vadd (xs ys : List ℚ) : List ℚ := List.zipWith (· + ·) xs ys

/-- Elementwise vector subtraction. -/
def vsub (xs ys : List ℚ) : List ℚ := List.zipWith (· - ·) xs ys

/-- Elementwise vector multiplication. -/
def vmul (xs ys : List ℚ) : List ℚ := List.zipWith (· * ·) xs ys

/-- Scalar-times-vector. -/
def vscale (c : ℚ) (xs : List ℚ) : List ℚ := xs.map (fun x => c * x)

/-- Elementwise negation. -/
def vneg (xs : List ℚ) : List ℚ := xs.map (fun x => -x)

/-- `1.0 - xs`, elementwise. -/
def voneMinus (xs : List ℚ) : List ℚ := xs.map (fun x => 1 - x)

/-- `jnp.square`, elementwise. -/
def vsq (xs : List ℚ) : List ℚ := xs.map (fun x => x ^ 2)

/-- `jnp.abs`, elementwise. -/
def vabs (xs : List ℚ) : List ℚ := xs.map (fun x => |x|)

/-- A batched gather `x[idx]`.  Under `jit`, JAX clamps an out-of-range
index into the valid range, which `min i (length - 1)` reproduces. -/
def gatherIdx {α : Type} [Inhabited α] (xs : List α) (idx : List ℕ) : List α :=
  idx.map (fun i => xs.getD (min i (xs.length - 1)) default)

/-- `jax.lax.scan` over an explicit list of inputs: threads the carry
and stacks the per-step outputs in order. -/
def scanl {S X Y : Type} (f : S → X → S × Y) : S → List X → S × List Y
  | s, [] => (s, [])
  | s, x :: xs =>
    let r := f s x
    let rest := scanl f r.1 xs
    (rest.1, r.2 :: rest.2)

/-- `jax.lax.scan` with `xs = None` and an explicit length. -/
def scanN {S Y : Type} (f : S → S × Y) : S → ℕ → S × List Y
  | s, 0 => (s, [])
  | s, n + 1 =>
    let r := f s
    let rest := scanN f r.1 n
    (rest.1, r.2 :: rest.2)

/-- `jax.lax.pmean` applied to a dictionary of named scalars: the tree
structure (the keys) is preserved and each leaf is replaced by the
axis-mean of that leaf, represented per replica by the abstract
per-leaf operator `f`. -/
def pmean_info (f : String → ℚ → ℚ) (li : List (String × ℚ)) : List (String × ℚ) :=
  li.map (fun kv => (kv.1, f kv.1 kv.2))

section Learner

variable {Obs Act AP CP QP OA OC OQ Key EnvState Info : Type}
variable [Inhabited Obs] [Inhabited Act] [Inhabited Info]

/-- The local `sample` closure of `_update_epoch` (lines 155-161): draws
512 indices uniformly from `[0, rollout_length * num_envs)` with a keyed
random draw and gathers them from every leaf of the input. -/
def sample (ctx : Ctx Obs Act AP CP QP OA OC OQ Key EnvState Info) (cfg : Config)
    {α : Type} [Inhabited α] (input : List α) (key : Key) : List α :=
  let size := cfg.rollout_length * cfg.num_envs
  let idx := ctx.randint key 512 size
  gatherIdx input idx

/-- `sample` applied to the pair `(traj_batch, advantages)`: the
`jax.tree.map` gather uses one index draw for both members. -/
def sample_pair (ctx : Ctx Obs Act AP CP QP OA OC OQ Key EnvState Info) (cfg : Config)
    (traj_batch : List (PPOTransition Obs Act Info)) (advantages : List ℚ) (key : Key) :
    List (PPOTransition Obs Act Info) × List ℚ :=
  let size := cfg.rollout_length * cfg.num_envs
  let idx := ctx.randint key 512 size
  (gatherIdx traj_batch idx, gatherIdx advantages idx)

/-- `_critic_loss_fn` (lines 178-203).  `critic_params` is the
differentiated copy, `critic_params_sg` the frozen (stop-gradient) copy:
`targets` is wrapped in `jax.lax.stop_gradient`, so its value-network
read uses the frozen copy.  The runtime loss value is obtained with
`critic_params_sg = critic_params`. -/
def critic_loss_fn (ctx : Ctx Obs Act AP CP QP OA OC OQ Key EnvState Info) (cfg : Config)
    (critic_params critic_params_sg : CP) (actor_params : AP)
    (batch : List (PPOTransition Obs Act Info)) (rng_key : Key) : ℚ × List (String × ℚ) :=
  let value := batch.map (fun t => ctx.critic_apply critic_params t.obs)
  let entropy := batch.map (fun t => (ctx.actor_apply actor_params t.obs).entropy rng_key)
  let targets :=
    vadd (batch.map (fun t => t.reward))
      (vscale cfg.gamma
        (vmul (voneMinus (batch.map (fun t => b2q t.done)))
          (vadd (batch.map (fun t => ctx.critic_apply critic_params_sg t.next_obs))
            (vscale alpha entropy))))
  let value_loss := (1 / 2 : ℚ) * mean (vsq (vsub value targets))
  let critic_total_loss := cfg.vf_coef * value_loss
  (critic_total_loss, [("value_loss", value_loss)])

/-- `_q_loss_fn` (lines 206-233).  The minibatch is first re-sampled
with the loss's random key; `q_params` is the differentiated copy and
`q_params_sg` the frozen copy read inside the stop-gradient `target_q`.
`next_action` is drawn from the actor at `next_obs` with the same key
used for the re-sample. -/
def q_loss_fn (ctx : Ctx Obs Act AP CP QP OA OC OQ Key EnvState Info) (cfg : Config)
    (q_params q_params_sg : QP) (actor_params : AP)
    (batch : List (PPOTransition Obs Act Info)) (rng_key : Key) : ℚ × List (String × ℚ) :=
  let batch := sample ctx cfg batch rng_key
  let q_old_action := batch.map (fun t => ctx.q_apply q_params t.obs t.action)
  let next_action := batch.map (fun t => (ctx.actor_apply actor_params t.next_obs).sample rng_key)
  let next_log_p :=
    List.zipWith (fun t a => (ctx.actor_apply actor_params t.next_obs).log_prob a) batch next_action
  let next_q := List.zipWith (fun t a => ctx.q_apply q_params_sg t.next_obs a) batch next_action
  let target_q :=
    vadd (batch.map (fun t => t.reward))
      (vscale cfg.gamma
        (vmul (voneMinus (batch.map (fun t => b2q t.done)))
          (vsub next_q (vscale alpha next_log_p))))
  let q_error := vsub q_old_action target_q
  let q_loss := (1 / 2 : ℚ) * mean (vsq q_error)
  (q_loss, [("q_loss", q_loss), ("q_error", mean (vabs q_error)), ("q1_pred", mean next_q)])

/-- `_actor_loss_fn` (lines 307-336).  The minibatch and the advantage
vector are re-sampled with the same key (hence the same indices); the
advantage enters only as data, never through the differentiated
`actor_params`. -/
def actor_loss_fn (ctx : Ctx Obs Act AP CP QP OA OC OQ Key EnvState Info) (cfg : Config)
    (actor_params : AP) (batch : List (PPOTransition Obs Act Info)) (gae : List ℚ)
    (rng_key : Key) : ℚ × List (String × ℚ) :=
  let batch := sample ctx cfg batch rng_key
  let adv_sample := sample ctx cfg gae rng_key
  let log_prob := batch.map (fun t => (ctx.actor_apply actor_params t.obs).log_prob t.action)
  let loss_actor := ctx.ppo_clip_loss log_prob (batch.map (fun t => t.log_prob)) adv_sample cfg.clip_eps
  let entropy := mean (batch.map (fun t => (ctx.actor_apply actor_params t.obs).entropy rng_key))
  let total_loss_actor := loss_actor
  (total_loss_actor, [("actor_loss", loss_actor), ("entropy", entropy)])

/-- `_update_critics` (lines 169-295): one critic/Q minibatch step.
Splits the key, differentiates the critic and Q losses against their own
parameter group (stop-gradient targets frozen at the incoming
parameters), reduces gradients and loss metrics with `pmean` over the
batch axis and then the device axis, applies both optimizer transforms,
and packs only the critic loss metrics. -/
def update_critics (ctx : Ctx Obs Act AP CP QP OA OC OQ Key EnvState Info) (cfg : Config)
    (train_state :
      ActorCriticQParams AP CP QP × ActorCriticQOptStates OA OC OQ × Key)
    (batch : List (PPOTransition Obs Act Info)) :
    (ActorCriticQParams AP CP QP × ActorCriticQOptStates OA OC OQ × Key) ×
      List (String × ℚ) :=
  let params := train_state.1
  let opt_states := train_state.2.1
  let key := train_state.2.2
  let ks := ctx.split4 key
  let critic_loss_key := ks.2.2.1
  let q_loss_key := ks.2.2.2
  let critic_grads :=
    ctx.grad_critic
      (fun p => (critic_loss_fn ctx cfg p params.critic_params params.actor_params batch critic_loss_key).1)
      params.critic_params
  let critic_loss_info :=
    (critic_loss_fn ctx cfg params.critic_params params.critic_params params.actor_params batch critic_loss_key).2
  let q_grads :=
    ctx.grad_q
      (fun p => (q_loss_fn ctx cfg p params.q_params params.actor_params batch q_loss_key).1)
      params.q_params
  let q_loss_info :=
    (q_loss_fn ctx cfg params.q_params params.q_params params.actor_params batch q_loss_key).2
  let critic_grads := ctx.pmean_batch_critic critic_grads
  let critic_loss_info := pmean_info ctx.pleaf_batch critic_loss_info
  let critic_grads := ctx.pmean_device_critic critic_grads
  let critic_loss_info := pmean_info ctx.pleaf_device critic_loss_info
  let q_grads := ctx.pmean_batch_q q_grads
  let q_loss_info := pmean_info ctx.pleaf_batch q_loss_info
  let q_grads := ctx.pmean_device_q q_grads
  let q_loss_info := pmean_info ctx.pleaf_device q_loss_info
  let cu := ctx.critic_update_fn critic_grads opt_states.critic_opt_state
  let critic_new_params := ctx.apply_updates_critic params.critic_params cu.1
  let qu := ctx.q_update_fn q_grads opt_states.q_opt_state
  let q_new_params := ctx.apply_updates_q params.q_params qu.1
  let new_params : ActorCriticQParams AP CP QP :=
    ⟨params.actor_params, critic_new_params, q_new_params⟩
  let new_opt_state : ActorCriticQOptStates OA OC OQ :=
    ⟨opt_states.actor_opt_state, cu.2, qu.2⟩
  let loss_info := critic_loss_info
  ((new_params, new_opt_state, ks.1), loss_info)

/-- `_update_actor` (lines 299-381): one actor minibatch step.  Splits
the key, differentiates the actor loss (the refreshed advantages enter
as fixed data), reduces over batch then device, applies the actor
optimizer, and leaves the critic/Q groups untouched. -/
def update_actor (ctx : Ctx Obs Act AP CP QP OA OC OQ Key EnvState Info) (cfg : Config)
    (train_state :
      ActorCriticQParams AP CP QP × ActorCriticQOptStates OA OC OQ × Key)
    (batch_info : List (PPOTransition Obs Act Info) × List ℚ) :
    (ActorCriticQParams AP CP QP × ActorCriticQOptStates OA OC OQ × Key) ×
      List (String × ℚ) :=
  let params := train_state.1
  let opt_states := train_state.2.1
  let key := train_state.2.2
  let batch := batch_info.1
  let advantages := batch_info.2
  let ks := ctx.split4 key
  let actor_loss_key := ks.2.1
  let actor_grads :=
    ctx.grad_actor
      (fun p => (actor_loss_fn ctx cfg p batch advantages actor_loss_key).1)
      params.actor_params
  let actor_loss_info :=
    (actor_loss_fn ctx cfg params.actor_params batch advantages actor_loss_key).2
  let actor_grads := ctx.pmean_batch_actor actor_grads
  let actor_loss_info := pmean_info ctx.pleaf_batch actor_loss_info
  let actor_grads := ctx.pmean_device_actor actor_grads
  let actor_loss_info := pmean_info ctx.pleaf_device actor_loss_info
  let au := ctx.actor_update_fn actor_grads opt_states.actor_opt_state
  let actor_new_params := ctx.apply_updates_actor params.actor_params au.1
  let new_params := { params with actor_params := actor_new_params }
  let new_opt_state := { opt_states with actor_opt_state := au.2 }
  let loss_info := actor_loss_info
  ((new_params, new_opt_state, ks.1), loss_info)

/-- The advantage recomputation block of `_update_epoch`
(lines 406-411), verbatim: `v`, `q` and a fresh `entropy` are evaluated
over the whole trajectory buffer under the given parameters and combined
with the stored rollout-time `log_prob`; `jax.lax.stop_gradient` is the
identity on values (the result is a constant for later
differentiation). -/
def advantages_code (ctx : Ctx Obs Act AP CP QP OA OC OQ Key EnvState Info)
    (params : ActorCriticQParams AP CP QP)
    (traj_batch : List (PPOTransition Obs Act Info)) (key : Key) : List ℚ :=
  let v := traj_batch.map (fun t => ctx.critic_apply params.critic_params t.obs)
  let q := traj_batch.map (fun t => ctx.q_apply params.q_params t.obs t.action)
  let entropy := traj_batch.map (fun t => (ctx.actor_apply params.actor_params t.obs).entropy key)
  vadd (vsub q v)
    (vscale alpha (vsub (vneg (traj_batch.map (fun t => t.log_prob))) entropy))

/-- `_update_epoch` (lines 152-420): 128 critic/Q minibatches are drawn
from the buffer and scanned through `_update_critics`; the advantages
are then recomputed over the entire buffer; 32 `(transition, advantage)`
minibatches are drawn and scanned through `_update_actor`; the buffer is
carried through unchanged, and the returned loss metrics are those of
the actor scan. -/
def update_epoch (ctx : Ctx Obs Act AP CP QP OA OC OQ Key EnvState Info) (cfg : Config)
    (update_state :
      ActorCriticQParams AP CP QP × ActorCriticQOptStates OA OC OQ ×
        List (PPOTransition Obs Act Info) × Key) :
    (ActorCriticQParams AP CP QP × ActorCriticQOptStates OA OC OQ ×
        List (PPOTransition Obs Act Info) × Key) ×
      List (List (String × ℚ)) :=
  let params := update_state.1
  let opt_states := update_state.2.1
  let traj_batch := update_state.2.2.1
  let key := update_state.2.2.2
  let s2 := ctx.split2 key
  let shuffle_key := s2.2
  let minibatches := (ctx.splitN shuffle_key 128).map (fun k => sample ctx cfg traj_batch k)
  let r1 := scanl (update_critics ctx cfg) (params, opt_states, s2.1) minibatches
  let advantages := advantages_code ctx r1.1.1 traj_batch r1.1.2.2
  let minibatches2 :=
    (ctx.splitN shuffle_key 32).map (fun k => sample_pair ctx cfg traj_batch advantages k)
  let r2 := scanl (update_actor ctx cfg) r1.1 minibatches2
  ((r2.1.1, r2.1.2.1, traj_batch, r2.1.2.2), r2.2)

/-- `_env_step` (lines 103-136): samples an action per environment,
records a transition, and steps every environment once. -/
def env_step (ctx : Ctx Obs Act AP CP QP OA OC OQ Key EnvState Info)
    (learner_state : OnPolicyLearnerState Obs Act AP CP QP OA OC OQ Key EnvState Info) :
    OnPolicyLearnerState Obs Act AP CP QP OA OC OQ Key EnvState Info ×
      List (PPOTransition Obs Act Info) :=
  let params := learner_state.params
  let opt_states := learner_state.opt_states
  let key := learner_state.key
  let env_state := learner_state.env_state
  let last_timestep := learner_state.last_timestep
  let s2 := ctx.split2 key
  let policy_key := s2.2
  let stepped :=
    (env_state.zip last_timestep).map (fun et =>
      let actor_policy := ctx.actor_apply params.actor_params et.2.observation
      let value := ctx.critic_apply params.critic_params et.2.observation
      let action := actor_policy.sample policy_key
      let log_prob := actor_policy.log_prob action
      let r := ctx.env_step et.1 action
      let timestep := r.2
      let done := decide (timestep.discount = 0)
      let truncated := timestep.is_last && decide (timestep.discount ≠ 0)
      let transition : PPOTransition Obs Act Info :=
        ⟨done, truncated, action, value, timestep.reward, log_prob,
          et.2.observation, timestep.observation, timestep.info⟩
      (r.1, timestep, transition))
  (⟨params, opt_states, s2.1, stepped.map (fun x => x.1), stepped.map (fun x => x.2.1)⟩,
    stepped.map (fun x => x.2.2))

/-- `_update_step` (lines 83-439): rollout for `rollout_length` steps,
flatten the (time, env) leading dimensions of the trajectory, run the
epoch scan, and return the new learner state together with the episode
metrics (the flattened `info` leaves) and the per-epoch loss metrics. -/
def update_step (ctx : Ctx Obs Act AP CP QP OA OC OQ Key EnvState Info) (cfg : Config)
    (learner_state : OnPolicyLearnerState Obs Act AP CP QP OA OC OQ Key EnvState Info) :
    OnPolicyLearnerState Obs Act AP CP QP OA OC OQ Key EnvState Info ×
      (List Info × List (List (List (String × ℚ)))) :=
  let r := scanN (fun s => env_step ctx s) learner_state cfg.rollout_length
  let ls := r.1
  let traj_batch := r.2.flatten
  let us := (ls.params, ls.opt_states, traj_batch, ls.key)
  let r2 := scanN (update_epoch ctx cfg) us cfg.epochs
  let out : OnPolicyLearnerState Obs Act AP CP QP OA OC OQ Key EnvState Info :=
    ⟨r2.1.1, r2.1.2.1, r2.1.2.2.2, ls.env_state, ls.last_timestep⟩
  let metric := r2.1.2.2.1.map (fun t => t.info)
  (out, (metric, r2.2))

/-- The critic/Q minibatch phase of one epoch, as a standalone
function: the scan of `_update_critics` over the drawn minibatches. -/
def critic_phase (ctx : Ctx Obs Act AP CP QP OA OC OQ Key EnvState Info) (cfg : Config)
    (params : ActorCriticQParams AP CP QP) (opt_states : ActorCriticQOptStates OA OC OQ)
    (key : Key) (minibatches : List (List (PPOTransition Obs Act Info))) :
    (ActorCriticQParams AP CP QP × ActorCriticQOptStates OA OC OQ × Key) ×
      List (List (String × ℚ)) :=
  scanl (update_critics ctx cfg) (params, opt_states, key) minibatches

/-- The actor minibatch phase of one epoch, as a standalone function. -/
def actor_phase (ctx : Ctx Obs Act AP CP QP OA OC OQ Key EnvState Info) (cfg : Config)
    (params : ActorCriticQParams AP CP QP) (opt_states : ActorCriticQOptStates OA OC OQ)
    (key : Key) (minibatches : List (List (PPOTransition Obs Act Info) × List ℚ)) :
    (ActorCriticQParams AP CP QP × ActorCriticQOptStates OA OC OQ × Key) ×
      List (List (String × ℚ)) :=
  scanl (update_actor ctx cfg) (params, opt_states, key) minibatches

/-- The 128 critic/Q minibatches drawn for one epoch (line 392). -/
def critic_minibatches (ctx : Ctx Obs Act AP CP QP OA OC OQ Key EnvState Info) (cfg : Config)
    (traj_batch : List (PPOTransition Obs Act Info)) (shuffle_key : Key) :
    List (List (PPOTransition Obs Act Info)) :=
  (ctx.splitN shuffle_key 128).map (fun k => sample ctx cfg traj_batch k)

/-- The 32 actor minibatches drawn for one epoch (line 413), pairing
transitions with the refreshed advantages. -/
def actor_minibatches (ctx : Ctx Obs Act AP CP QP OA OC OQ Key EnvState Info) (cfg : Config)
    (traj_batch : List (PPOTransition Obs Act Info)) (advantages : List ℚ)
    (shuffle_key : Key) : List (List (PPOTransition Obs Act Info) × List ℚ) :=
  (ctx.splitN shuffle_key 32).map (fun k => sample_pair ctx cfg traj_batch advantages k)

end Learner

section SpecSide

variable {Obs Act AP CP QP OA OC OQ Key EnvState Info : Type}
variable [Inhabited Obs] [Inhabited Act] [Inhabited Info]

/-- The advantage formula as the specification states it, per
transition: `Q(obs, action) - V(obs) + alpha * (-log_prob - entropy)`,
with `Q`, `V` and the policy entropy evaluated under the given
parameters and `log_prob` the stored rollout-time log-probability. -/
def advantage_refresh_spec (ctx : Ctx Obs Act AP CP QP OA OC OQ Key EnvState Info)
    (params : ActorCriticQParams AP CP QP)
    (traj_batch : List (PPOTransition Obs Act Info)) (key : Key) : List ℚ :=
  traj_batch.map (fun t =>
    ctx.q_apply params.q_params t.obs t.action - ctx.critic_apply params.critic_params t.obs +
      alpha * (-t.log_prob - (ctx.actor_apply params.actor_params t.obs).entropy key))

/-- The critic regression target as the specification states it:
`reward + gamma * (1 - done) * (V(next_obs) + alpha * entropy)`. -/
def critic_target_spec (ctx : Ctx Obs Act AP CP QP OA OC OQ Key EnvState Info) (cfg : Config)
    (critic_params : CP) (actor_params : AP) (t : PPOTransition Obs Act Info) (key : Key) : ℚ :=
  t.reward + cfg.gamma * (1 - b2q t.done) *
    (ctx.critic_apply critic_params t.next_obs +
      alpha * (ctx.actor_apply actor_params t.obs).entropy key)

/-- The Q regression target as the specification states it:
`reward + gamma * (1 - done) * (Q(next_obs, next_action) - alpha * next_log_prob)`
with `next_action` sampled from the actor at `next_obs`. -/
def q_target_spec (ctx : Ctx Obs Act AP CP QP OA OC OQ Key EnvState Info) (cfg : Config)
    (q_params : QP) (actor_params : AP) (t : PPOTransition Obs Act Info) (key : Key) : ℚ :=
  let next_action := (ctx.actor_apply actor_params t.next_obs).sample key
  t.reward + cfg.gamma * (1 - b2q t.done) *
    (ctx.q_apply q_params t.next_obs next_action -
      alpha * (ctx.actor_apply actor_params t.next_obs).log_prob next_action)

/-- The Q loss exactly as the specification words it, evaluated over a
given batch of transitions: `0.5 * mean((Q(obs, action) - target_q)^2)`.
Written from the spec, to be compared with `q_loss_fn` (which re-samples
the minibatch before evaluating this formula). -/
def q_loss_claim (ctx : Ctx Obs Act AP CP QP OA OC OQ Key EnvState Info) (cfg : Config)
    (q_params : QP) (actor_params : AP) (batch : List (PPOTransition Obs Act Info))
    (key : Key) : ℚ :=
  (1 / 2 : ℚ) *
    mean (batch.map (fun t =>
      (ctx.q_apply q_params t.obs t.action - q_target_spec ctx cfg q_params actor_params t key) ^ 2))

/-- The minibatch draw keyed by `key` reads only inside an array of
length `len`: every drawn index is below `len`. -/
def sample_in_bounds (ctx : Ctx Obs Act AP CP QP OA OC OQ Key EnvState Info) (cfg : Config)
    (len : ℕ) (key : Key) : Prop :=
  ∀ i ∈ ctx.randint key 512 (cfg.rollout_length * cfg.num_envs), i < len

end SpecSide

section Replicated

/-- `jax.lax.pmean` over the `batch` axis: every batch replica of a
device is replaced by the arithmetic mean over that device's batch
replicas.  One gradient leaf is modelled; `pmean` acts on each leaf of
the gradient tree independently. -/
def pmean_batch_axis {D B : ℕ} (g : Fin D → Fin B → ℚ) : Fin D → Fin B → ℚ :=
  fun d _ => (∑ i, g d i) / (B : ℚ)

/-- `jax.lax.pmean` over the `device` axis. -/
def pmean_device_axis {D B : ℕ} (g : Fin D → Fin B → ℚ) : Fin D → Fin B → ℚ :=
  fun _ b => (∑ i, g i b) / (D : ℚ)

/-- The two-stage reduction of the source (lines 252-267 and 354-360):
`pmean` over the batch axis first, then over the device axis. -/
def two_stage_reduce {D B : ℕ} (g : Fin D → Fin B → ℚ) : Fin D → Fin B → ℚ :=
  pmean_device_axis (pmean_batch_axis g)

/-- One replicated minibatch update for a single pathway: every replica
holds its own gradient leaf, parameters and optimizer state; the
two-stage reduction runs to completion and only then is the optimizer
transform applied, on every replica, to the single reduced gradient
(`update_fn` and `apply_updates` mirror the optax interface). -/
def minibatch_update_repl {D B : ℕ} {P O U : Type}
    (update_fn : ℚ → O → U × O) (apply_updates : P → U → P)
    (g : Fin D → Fin B → ℚ) (params : Fin D → Fin B → P) (opt : Fin D → Fin B → O) :
    Fin D → Fin B → P × O :=
  fun d b =>
    let reduced := two_stage_reduce g
    let u := update_fn (reduced d b) (opt d b)
    (apply_updates (params d b) u.1, u.2)

end Replicated

/-- The keys of a loss-metrics dictionary, in insertion order. -/
def info_keys (li : List (String × ℚ)) : List String := li.map Prod.fst

section ConcreteInstances

/-!  Concrete instantiations of the abstract collaborators, used to
exercise the theorems on explicit inputs.  Parameters are trivial
(`Unit`), optimizer states are bare step counters (the `count` field of
an Adam state), observations and actions are rationals, and the Q
network reads back the observation so that distinct transitions give
distinct Q values. -/

/-- A concrete collaborator context.  Its `randint` is keyed: key `0`
draws index `0` once and then index `1 % size` repeatedly, any other
key `k` draws the constant index `k % size`; every drawn index stays
inside `[0, size)` whenever `size > 0`. -/
def baseCtx : Ctx ℚ ℚ Unit Unit Unit ℕ ℕ ℕ ℕ Unit Unit where
  actor_apply := fun _ _ => ⟨fun _ => 0, fun _ => 0, fun _ => 0⟩
  critic_apply := fun _ _ => 0
  q_apply := fun _ o _ => o
  actor_update_fn := fun g s => (g, s + 1)
  critic_update_fn := fun g s => (g, s + 1)
  q_update_fn := fun g s => (g, s + 1)
  apply_updates_actor := fun p _ => p
  apply_updates_critic := fun p _ => p
  apply_updates_q := fun p _ => p
  grad_actor := fun _ p => p
  grad_critic := fun _ p => p
  grad_q := fun _ p => p
  split2 := fun k => (k, k)
  split4 := fun k => (k, k, k, k)
  splitN := fun k n => List.replicate n k
  randint := fun k n m =>
    if k = 0 then (0 :: List.replicate (n - 1) 1).map (fun i => i % m)
    else List.replicate n (k % m)
  ppo_clip_loss := fun _ _ _ _ => 0
  pmean_batch_actor := fun p => p
  pmean_device_actor := fun p => p
  pmean_batch_critic := fun p => p
  pmean_device_critic := fun p => p
  pmean_batch_q := fun p => p
  pmean_device_q := fun p => p
  pleaf_batch := fun _ v => v
  pleaf_device := fun _ v => v
  env_step := fun s _ => (s, ⟨0, 0, 1, false, ()⟩)

/-- A two-transition configuration: `rollout_length * num_envs = 2`. -/
def cfg2 : Config := ⟨2, 1, 2, 1, 1, 1 / 5⟩

/-- A transition whose observation is `1` (so its Q prediction is `1`)
and whose next observation is `0`. -/
def ct0 : PPOTransition ℚ ℚ Unit := ⟨false, false, 0, 0, 0, 0, 1, 0, ()⟩

/-- A transition whose observation and next observation are both `0`. -/
def ct1 : PPOTransition ℚ ℚ Unit := ⟨false, false, 0, 0, 0, 0, 0, 0, ()⟩

/-- A two-transition trajectory buffer. -/
def ctb2 : List (PPOTransition ℚ ℚ Unit) := [ct0, ct1]

/-- The critic/Q-phase minibatch drawn from `ctb2` with key `0`:
`ct0` followed by 511 copies of `ct1`. -/
def cmb2 : List (PPOTransition ℚ ℚ Unit) := sample baseCtx cfg2 ctb2 0

/-- A context whose `randint` always draws index `min 600 (size - 1)`:
a legitimate uniform-draw outcome, since every returned index lies in
`[0, size)` whenever `size > 0`. -/
def ctxB : Ctx ℚ ℚ Unit Unit Unit ℕ ℕ ℕ ℕ Unit Unit :=
  { baseCtx with randint := fun _ n m => List.replicate n (min 600 (m - 1)) }

/-- A valid configuration with `rollout_length * num_envs = 1024 > 512`. -/
def cfgB : Config := ⟨1024, 1, 2, 1, 1, 1 / 5⟩

/-- A trajectory buffer of the matching size `1024`. -/
def ctbB : List (PPOTransition ℚ ℚ Unit) := List.replicate 1024 ct1

/-- A context whose `randint` always draws index `0`. -/
def ctxC : Ctx ℚ ℚ Unit Unit Unit ℕ ℕ ℕ ℕ Unit Unit :=
  { baseCtx with randint := fun _ n _ => List.replicate n 0 }

/-- The configuration used for `ctxC`: buffer size `2`. -/
def cfgC : Config := ⟨2, 1, 2, 1, 1, 1 / 5⟩

/-- A configuration with `epochs = 2` (and one environment stepped for
one rollout step). -/
def cfg6 : Config := ⟨1, 1, 2, 1, 1, 1 / 5⟩

/-- A concrete initial learner state with all optimizer step counters
at zero. -/
def ls6 : OnPolicyLearnerState ℚ ℚ Unit Unit Unit ℕ ℕ ℕ ℕ Unit Unit :=
  ⟨⟨(), (), ()⟩, ⟨0, 0, 0⟩, 0, [()], [⟨0, 0, 1, false, ()⟩]⟩

end ConcreteInstances

section Lemmas

variable {Obs Act AP CP QP OA OC OQ Key EnvState Info : Type}
variable [Inhabited Obs] [Inhabited Act] [Inhabited Info]

theorem zipWith_map_map {α β : Type} (f : β → β → β) (g h : α → β) (l : List α) :
    List.zipWith f (l.map g) (l.map h) = l.map (fun x => f (g x) (h x)) := by
  induction l with
  | nil => rfl
  | cons a l ih => simp [ih]

theorem zipWith_map_right {α β γ : Type} (f : α → β → γ) (g : α → β) (l : List α) :
    List.zipWith f l (l.map g) = l.map (fun x => f x (g x)) := by
  induction l with
  | nil => rfl
  | cons a l ih => simp [ih]

theorem map_congr_fun {α β : Type} (l : List α) (f g : α → β) (h : ∀ a, f a = g a) :
    l.map f = l.map g := by
  induction l with
  | nil => rfl
  | cons a l ih => simp [h, ih]

theorem map_congr_mem {α β : Type} (l : List α) (f g : α → β) (h : ∀ a ∈ l, f a = g a) :
    l.map f = l.map g := by
  induction l with
  | nil => rfl
  | cons a l ih =>
    simp only [List.map_cons, h a (by simp)]
    rw [ih (fun a ha => h a (by simp [ha]))]

theorem map_eq_replicate {α β : Type} (l : List α) (f : α → β) (c : β)
    (h : ∀ a ∈ l, f a = c) : l.map f = List.replicate l.length c := by
  induction l with
  | nil => rfl
  | cons a l ih =>
    simp only [List.map_cons, List.length_cons, List.replicate_succ, h a (by simp)]
    rw [ih (fun a ha => h a (by simp [ha]))]

theorem pmean_info_keys (f : String → ℚ → ℚ) (li : List (String × ℚ)) :
    (pmean_info f li).map Prod.fst = li.map Prod.fst := by
  induction li with
  | nil => rfl
  | cons kv li ih => simpa [pmean_info] using ih

theorem scanl_fst_count {S X Y : Type} (f : S → X → S × Y) (m : S → ℕ) (c : ℕ)
    (h : ∀ s x, m (f s x).1 = m s + c) :
    ∀ (xs : List X) (s : S), m (scanl f s xs).1 = m s + c * xs.length := by
  intro xs
  induction xs with
  | nil => intro s; simp [scanl]
  | cons x xs ih => intro s; simp [scanl, ih, h]; ring

theorem scanN_fst_count {S Y : Type} (f : S → S × Y) (m : S → ℕ) (c : ℕ)
    (h : ∀ s, m (f s).1 = m s + c) :
    ∀ (n : ℕ) (s : S), m (scanN f s n).1 = m s + c * n := by
  intro n
  induction n with
  | zero => intro s; simp [scanN]
  | succ n ih => intro s; simp [scanN, ih, h]; ring

theorem scanN_fst_proj {S Y β : Type} (f : S → S × Y) (p : S → β)
    (h : ∀ s, p (f s).1 = p s) : ∀ (n : ℕ) (s : S), p (scanN f s n).1 = p s := by
  intro n
  induction n with
  | zero => intro s; simp [scanN]
  | succ n ih => intro s; simp [scanN, ih, h]

theorem scanl_snd_forall {S X Y : Type} (f : S → X → S × Y) (P : Y → Prop)
    (h : ∀ s x, P (f s x).2) :
    ∀ (xs : List X) (s : S), ∀ y ∈ (scanl f s xs).2, P y := by
  intro xs
  induction xs with
  | nil => intro s y hy; simp [scanl] at hy
  | cons x xs ih =>
    intro s y hy
    simp only [scanl, List.mem_cons] at hy
    rcases hy with hy | hy
    · exact hy ▸ h s x
    · exact ih _ y hy

theorem scanN_snd_forall {S Y : Type} (f : S → S × Y) (P : Y → Prop)
    (h : ∀ s, P (f s).2) :
    ∀ (n : ℕ) (s : S), ∀ y ∈ (scanN f s n).2, P y := by
  intro n
  induction n with
  | zero => intro s y hy; simp [scanN] at hy
  | succ n ih =>
    intro s y hy
    simp only [scanN, List.mem_cons] at hy
    rcases hy with hy | hy
    · exact hy ▸ h s
    · exact ih _ y hy

end Lemmas

section FormulaLemmas

variable {Obs Act AP CP QP OA OC OQ Key EnvState Info : Type}
variable [Inhabited Obs] [Inhabited Act] [Inhabited Info]

theorem advantages_code_eq (ctx : Ctx Obs Act AP CP QP OA OC OQ Key EnvState Info)
    (params : ActorCriticQParams AP CP QP)
    (traj_batch : List (PPOTransition Obs Act Info)) (key : Key) :
    advantages_code ctx params traj_batch key =
      advantage_refresh_spec ctx params traj_batch key := by
  unfold advantages_code advantage_refresh_spec
  simp only [vadd, vsub, vscale, vneg, zipWith_map_map, List.map_map, Function.comp_def]

theorem critic_loss_fn_eq (ctx : Ctx Obs Act AP CP QP OA OC OQ Key EnvState Info)
    (cfg : Config) (cp cps : CP) (ap : AP) (batch : List (PPOTransition Obs Act Info))
    (k : Key) :
    (critic_loss_fn ctx cfg cp cps ap batch k).1 =
      cfg.vf_coef * ((1 / 2 : ℚ) * mean (batch.map (fun t =>
        (ctx.critic_apply cp t.obs - critic_target_spec ctx cfg cps ap t k) ^ 2))) := by
  unfold critic_loss_fn critic_target_spec
  simp only [vadd, vsub, vscale, vmul, voneMinus, vsq, zipWith_map_map, List.map_map,
    Function.comp_def]
  exact congrArg (fun z => cfg.vf_coef * ((1 / 2 : ℚ) * mean z))
    (map_congr_fun _ _ _ (fun t => by ring))

theorem q_loss_fn_eq (ctx : Ctx Obs Act AP CP QP OA OC OQ Key EnvState Info)
    (cfg : Config) (qp qps : QP) (ap : AP) (batch : List (PPOTransition Obs Act Info))
    (k : Key) :
    (q_loss_fn ctx cfg qp qps ap batch k).1 =
      (1 / 2 : ℚ) * mean ((sample ctx cfg batch k).map (fun t =>
        (ctx.q_apply qp t.obs t.action - q_target_spec ctx cfg qps ap t k) ^ 2)) := by
  unfold q_loss_fn q_target_spec
  simp only [vadd, vsub, vscale, vmul, voneMinus, vsq, zipWith_map_map, zipWith_map_right,
    List.map_map, Function.comp_def]
  exact congrArg (fun z => (1 / 2 : ℚ) * mean z)
    (map_congr_fun _ _ _ (fun t => by ring))

end FormulaLemmas

section CountLemmas

variable {Obs Act AP CP QP OA OC OQ Key EnvState Info : Type}
variable [Inhabited Obs] [Inhabited Act] [Inhabited Info]

theorem update_critics_cntC (ctx : Ctx Obs Act AP CP QP OA OC OQ Key EnvState Info)
    (cfg : Config) (cntC : OC → ℕ)
    (hC : ∀ g s, cntC (ctx.critic_update_fn g s).2 = cntC s + 1)
    (ts : ActorCriticQParams AP CP QP × ActorCriticQOptStates OA OC OQ × Key)
    (batch : List (PPOTransition Obs Act Info)) :
    cntC (update_critics ctx cfg ts batch).1.2.1.critic_opt_state =
      cntC ts.2.1.critic_opt_state + 1 := by
  simp only [update_critics]
  exact hC _ _

theorem update_critics_cntQ (ctx : Ctx Obs Act AP CP QP OA OC OQ Key EnvState Info)
    (cfg : Config) (cntQ : OQ → ℕ)
    (hQ : ∀ g s, cntQ (ctx.q_update_fn g s).2 = cntQ s + 1)
    (ts : ActorCriticQParams AP CP QP × ActorCriticQOptStates OA OC OQ × Key)
    (batch : List (PPOTransition Obs Act Info)) :
    cntQ (update_critics ctx cfg ts batch).1.2.1.q_opt_state =
      cntQ ts.2.1.q_opt_state + 1 := by
  simp only [update_critics]
  exact hQ _ _

theorem update_actor_cntA (ctx : Ctx Obs Act AP CP QP OA OC OQ Key EnvState Info)
    (cfg : Config) (cntA : OA → ℕ)
    (hA : ∀ g s, cntA (ctx.actor_update_fn g s).2 = cntA s + 1)
    (ts : ActorCriticQParams AP CP QP × ActorCriticQOptStates OA OC OQ × Key)
    (bi : List (PPOTransition Obs Act Info) × List ℚ) :
    cntA (update_actor ctx cfg ts bi).1.2.1.actor_opt_state =
      cntA ts.2.1.actor_opt_state + 1 := by
  simp only [update_actor]
  exact hA _ _

theorem update_epoch_cntC (ctx : Ctx Obs Act AP CP QP OA OC OQ Key EnvState Info)
    (cfg : Config) (cntC : OC → ℕ)
    (hsplit : ∀ k n, (ctx.splitN k n).length = n)
    (hC : ∀ g s, cntC (ctx.critic_update_fn g s).2 = cntC s + 1)
    (us : ActorCriticQParams AP CP QP × ActorCriticQOptStates OA OC OQ ×
        List (PPOTransition Obs Act Info) × Key) :
    cntC (update_epoch ctx cfg us).1.2.1.critic_opt_state =
      cntC us.2.1.critic_opt_state + 128 := by
  simp only [update_epoch]
  rw [scanl_fst_count (update_actor ctx cfg)
      (fun s => cntC s.2.1.critic_opt_state) 0 (fun s x => by simp [update_actor])]
  rw [scanl_fst_count (update_critics ctx cfg)
      (fun s => cntC s.2.1.critic_opt_state) 1
      (fun s x => update_critics_cntC ctx cfg cntC hC s x)]
  simp [hsplit]

theorem update_epoch_cntQ (ctx : Ctx Obs Act AP CP QP OA OC OQ Key EnvState Info)
    (cfg : Config) (cntQ : OQ → ℕ)
    (hsplit : ∀ k n, (ctx.splitN k n).length = n)
    (hQ : ∀ g s, cntQ (ctx.q_update_fn g s).2 = cntQ s + 1)
    (us : ActorCriticQParams AP CP QP × ActorCriticQOptStates OA OC OQ ×
        List (PPOTransition Obs Act Info) × Key) :
    cntQ (update_epoch ctx cfg us).1.2.1.q_opt_state =
      cntQ us.2.1.q_opt_state + 128 := by
  simp only [update_epoch]
  rw [scanl_fst_count (update_actor ctx cfg)
      (fun s => cntQ s.2.1.q_opt_state) 0 (fun s x => by simp [update_actor])]
  rw [scanl_fst_count (update_critics ctx cfg)
      (fun s => cntQ s.2.1.q_opt_state) 1
      (fun s x => update_critics_cntQ ctx cfg cntQ hQ s x)]
  simp [hsplit]

theorem update_epoch_cntA (ctx : Ctx Obs Act AP CP QP OA OC OQ Key EnvState Info)
    (cfg : Config) (cntA : OA → ℕ)
    (hsplit : ∀ k n, (ctx.splitN k n).length = n)
    (hA : ∀ g s, cntA (ctx.actor_update_fn g s).2 = cntA s + 1)
    (us : ActorCriticQParams AP CP QP × ActorCriticQOptStates OA OC OQ ×
        List (PPOTransition Obs Act Info) × Key) :
    cntA (update_epoch ctx cfg us).1.2.1.actor_opt_state =
      cntA us.2.1.actor_opt_state + 32 := by
  simp only [update_epoch]
  rw [scanl_fst_count (update_actor ctx cfg)
      (fun s => cntA s.2.1.actor_opt_state) 1
      (fun s x => update_actor_cntA ctx cfg cntA hA s x)]
  rw [scanl_fst_count (update_critics ctx cfg)
      (fun s => cntA s.2.1.actor_opt_state) 0 (fun s x => by simp [update_critics])]
  simp [hsplit]

end CountLemmas

section ClaimTheorems

variable {Obs Act AP CP QP OA OC OQ Key EnvState Info : Type}
variable [Inhabited Obs] [Inhabited Act] [Inhabited Info]

/-- C1: In every epoch, after the critic/Q minibatch phase, the
advantage of every transition in the trajectory buffer is recomputed as
`Q(obs, action) - V(obs) + alpha * (-log_prob - entropy)` under the
parameters produced by that epoch's critic/Q phase (which carry the
current actor parameters through unchanged), with `log_prob` the stored
rollout-time log-probability and `alpha` the fixed constant `1/10`.
Conjunct 1 equates the code's vectorized advantage block with the
per-transition formula; conjunct 2 shows `_update_epoch` computes the
actor-phase advantages exactly once, from the critic-phase output state;
conjunct 3 shows the refreshed advantages enter the actor loss only as
gathered constant data (never through the differentiated actor
parameters), i.e. they are stop-gradient for all subsequent
differentiation. -/
theorem c1_advantage_recomputation
    (ctx : Ctx Obs Act AP CP QP OA OC OQ Key EnvState Info) (cfg : Config) :
    (∀ (params : ActorCriticQParams AP CP QP)
        (tb : List (PPOTransition Obs Act Info)) (key : Key),
        advantages_code ctx params tb key = advantage_refresh_spec ctx params tb key)
    ∧ (∀ (p : ActorCriticQParams AP CP QP) (o : ActorCriticQOptStates OA OC OQ)
        (tb : List (PPOTransition Obs Act Info)) (k : Key),
        update_epoch ctx cfg (p, o, tb, k) =
          (let s2 := ctx.split2 k
           let r1 := scanl (update_critics ctx cfg) (p, o, s2.1)
             (critic_minibatches ctx cfg tb s2.2)
           let advantages := advantage_refresh_spec ctx r1.1.1 tb r1.1.2.2
           let r2 := scanl (update_actor ctx cfg) r1.1
             (actor_minibatches ctx cfg tb advantages s2.2)
           ((r2.1.1, r2.1.2.1, tb, r2.1.2.2), r2.2)))
    ∧ (∀ (ap : AP) (mb : List (PPOTransition Obs Act Info)) (adv : List ℚ) (k : Key),
        (actor_loss_fn ctx cfg ap mb adv k).1 =
          ctx.ppo_clip_loss
            ((sample ctx cfg mb k).map (fun t => (ctx.actor_apply ap t.obs).log_prob t.action))
            ((sample ctx cfg mb k).map (fun t => t.log_prob))
            (sample ctx cfg adv k) cfg.clip_eps) := by
  refine ⟨fun params tb key => advantages_code_eq ctx params tb key, ?_, ?_⟩
  · intro p o tb k
    simp only [update_epoch, critic_minibatches, actor_minibatches, advantages_code_eq]
  · intro ap mb adv k
    rfl

/-- C2 (amended): for every critic/Q-phase minibatch, the critic loss is
the value-loss coefficient times `0.5 * mean((V(obs) - target)^2)` with
`target = reward + gamma * (1 - done) * (V(next_obs) + alpha * entropy)`
(entropy drawn with the minibatch's critic loss key), and the Q loss is
`0.5 * mean((Q(obs, action) - target_q)^2)` with
`target_q = reward + gamma * (1 - done) * (Q(next_obs, next_action) - alpha * next_log_prob)`,
`next_action` sampled from the actor at `next_obs` — but computed over a
fresh 512-element with-replacement re-sample of the minibatch, drawn
with the same key used for `next_action` (the claim as stated, over the
minibatch itself, fails: see the counterexample).  The first slot of
each loss is the differentiated parameter copy and the second the
frozen stop-gradient copy: the targets read only the frozen copy, so
they are constants for the gradient computation, and the runtime loss
value is the statement at equal slots. -/
theorem c2_losses_amended
    (ctx : Ctx Obs Act AP CP QP OA OC OQ Key EnvState Info) (cfg : Config)
    (cp_d cp : CP) (qp_d qp : QP) (ap : AP)
    (mb : List (PPOTransition Obs Act Info)) (ck qk : Key) :
    (critic_loss_fn ctx cfg cp_d cp ap mb ck).1 =
      cfg.vf_coef * ((1 / 2 : ℚ) * mean (mb.map (fun t =>
        (ctx.critic_apply cp_d t.obs - critic_target_spec ctx cfg cp ap t ck) ^ 2)))
    ∧ (q_loss_fn ctx cfg qp_d qp ap mb qk).1 =
      (1 / 2 : ℚ) * mean ((sample ctx cfg mb qk).map (fun t =>
        (ctx.q_apply qp_d t.obs t.action - q_target_spec ctx cfg qp ap t qk) ^ 2)) :=
  ⟨critic_loss_fn_eq ctx cfg cp_d cp ap mb ck, q_loss_fn_eq ctx cfg qp_d qp ap mb qk⟩

/-- C3: every epoch executes critic/Q minibatch updates, then the
advantage recomputation over the entire buffer, then actor minibatch
updates, in that order: `_update_epoch` is exactly the composition of
`critic_phase`, the spec's advantage refresh evaluated at the
critic-phase output parameters and key, and `actor_phase` fed with
minibatches pairing transitions and those refreshed advantages. -/
theorem c3_phase_order
    (ctx : Ctx Obs Act AP CP QP OA OC OQ Key EnvState Info) (cfg : Config) :
    ∀ (p : ActorCriticQParams AP CP QP) (o : ActorCriticQOptStates OA OC OQ)
      (tb : List (PPOTransition Obs Act Info)) (k : Key),
      update_epoch ctx cfg (p, o, tb, k) =
        (let s2 := ctx.split2 k
         let r1 := critic_phase ctx cfg p o s2.1 (critic_minibatches ctx cfg tb s2.2)
         let advantages := advantage_refresh_spec ctx r1.1.1 tb r1.1.2.2
         let r2 := actor_phase ctx cfg r1.1.1 r1.1.2.1 r1.1.2.2
           (actor_minibatches ctx cfg tb advantages s2.2)
         ((r2.1.1, r2.1.2.1, tb, r2.1.2.2), r2.2)) := by
  intro p o tb k
  simp only [update_epoch, critic_phase, actor_phase, critic_minibatches, actor_minibatches,
    advantages_code_eq]

/-- C5: for a minibatch gradient step replicated over the device and
environment-batch axes, the two-stage reduction of the source (`pmean`
over the batch axis, then `pmean` over the device axis) equals, on every
replica, the arithmetic mean of all per-replica gradient leaves, and
the replicated minibatch update hands exactly that reduced value to the
optimizer transform before applying the parameter update — the same
protocol serves the actor, critic and Q pathways. -/
theorem c5_two_stage_mean :
    ∀ (D B : ℕ) (g : Fin D → Fin B → ℚ) (d : Fin D) (b : Fin B),
      two_stage_reduce g d b =
        (∑ i : Fin D, ∑ j : Fin B, g i j) / ((D : ℚ) * (B : ℚ))
      ∧ ∀ (P O U : Type) (update_fn : ℚ → O → U × O) (apply_updates : P → U → P)
          (params : Fin D → Fin B → P) (opt : Fin D → Fin B → O),
          minibatch_update_repl update_fn apply_updates g params opt d b =
            (apply_updates (params d b)
              (update_fn ((∑ i : Fin D, ∑ j : Fin B, g i j) / ((D : ℚ) * (B : ℚ)))
                (opt d b)).1,
             (update_fn ((∑ i : Fin D, ∑ j : Fin B, g i j) / ((D : ℚ) * (B : ℚ)))
                (opt d b)).2) := by
  intro D B g d b
  have h1 : two_stage_reduce g d b =
      (∑ i : Fin D, ∑ j : Fin B, g i j) / ((D : ℚ) * (B : ℚ)) := by
    unfold two_stage_reduce pmean_device_axis pmean_batch_axis
    rw [← Finset.sum_div, div_div, mul_comm]
  refine ⟨h1, ?_⟩
  intro P O U update_fn apply_updates params opt
  simp only [minibatch_update_repl, h1]

end ClaimTheorems

section ClaimTheorems2

variable {Obs Act AP CP QP OA OC OQ Key EnvState Info : Type}
variable [Inhabited Obs] [Inhabited Act] [Inhabited Info]

/-- C4 (amended): under the semantics of `jax.random.randint` (each
draw returns the requested number of indices, all inside
`[0, maxval)`), every minibatch draw of an update step uses only
indices in `[0, horizon * num_envs)`, and the per-epoch gathers from
the flattened trajectory buffer always read in bounds; the re-samples
inside the Q loss and the actor loss, however, index 512-element
minibatch arrays with indices drawn from `[0, horizon * num_envs)`, so
they are guaranteed in bounds only when `horizon * num_envs ≤ 512`
(the claim as stated, for every valid configuration, fails: see the
counterexample). -/
theorem c4_index_bounds_amended
    (ctx : Ctx Obs Act AP CP QP OA OC OQ Key EnvState Info) (cfg : Config)
    (hlen : ∀ (k : Key) (n m : ℕ), (ctx.randint k n m).length = n)
    (hrange : ∀ (k : Key) (n m : ℕ), 0 < m → ∀ i ∈ ctx.randint k n m, i < m)
    (hpos : 0 < cfg.rollout_length * cfg.num_envs) :
    (∀ (k : Key) (i : ℕ),
        i ∈ ctx.randint k 512 (cfg.rollout_length * cfg.num_envs) →
          i < cfg.rollout_length * cfg.num_envs)
    ∧ (∀ (tb : List (PPOTransition Obs Act Info)) (k : Key),
        tb.length = cfg.rollout_length * cfg.num_envs →
          sample_in_bounds ctx cfg tb.length k)
    ∧ (cfg.rollout_length * cfg.num_envs ≤ 512 →
        (∀ (tb : List (PPOTransition Obs Act Info)) (sk : Key),
          ∀ mb ∈ critic_minibatches ctx cfg tb sk, ∀ k : Key,
            sample_in_bounds ctx cfg mb.length k)
        ∧ (∀ (tb : List (PPOTransition Obs Act Info)) (adv : List ℚ) (sk : Key),
            ∀ pr ∈ actor_minibatches ctx cfg tb adv sk, ∀ k : Key,
              sample_in_bounds ctx cfg pr.1.length k ∧
                sample_in_bounds ctx cfg pr.2.length k)) := by
  have hr : ∀ (k : Key) (i : ℕ),
      i ∈ ctx.randint k 512 (cfg.rollout_length * cfg.num_envs) →
        i < cfg.rollout_length * cfg.num_envs :=
    fun k i hi => hrange k 512 _ hpos i hi
  refine ⟨hr, ?_, ?_⟩
  · intro tb k htb
    intro i hi
    rw [htb]
    exact hr k i hi
  · intro hle
    constructor
    · intro tb sk mb hmb k
      rcases List.mem_map.mp hmb with ⟨kk, _, hk⟩
      have hmblen : mb.length = 512 := by
        rw [← hk]
        simp [sample, gatherIdx, hlen]
      intro i hi
      rw [hmblen]
      exact lt_of_lt_of_le (hr k i hi) hle
    · intro tb adv sk pr hpr k
      rcases List.mem_map.mp hpr with ⟨kk, _, hk⟩
      have h1 : pr.1.length = 512 := by
        rw [← hk]
        simp [sample_pair, gatherIdx, hlen]
      have h2 : pr.2.length = 512 := by
        rw [← hk]
        simp [sample_pair, gatherIdx, hlen]
      constructor
      · intro i hi
        rw [h1]
        exact lt_of_lt_of_le (hr k i hi) hle
      · intro i hi
        rw [h2]
        exact lt_of_lt_of_le (hr k i hi) hle

/-- C6: with `epochs = 2` (and the hard-coded 128 critic/Q minibatches
and 32 actor minibatches of size 512 per epoch), one update step
performs exactly 256 critic, 256 Q and 64 actor optimizer steps: for
any step-counter view of the optimizer states that each optimizer
transform increments by one per call (as the Adam `count` does), the
counters of the output learner state read 256, 256 and 64 when they
start at zero. -/
theorem c6_optimizer_step_counts
    (ctx : Ctx Obs Act AP CP QP OA OC OQ Key EnvState Info) (cfg : Config)
    (cntA : OA → ℕ) (cntC : OC → ℕ) (cntQ : OQ → ℕ)
    (hsplit : ∀ (k : Key) (n : ℕ), (ctx.splitN k n).length = n)
    (hA : ∀ g s, cntA (ctx.actor_update_fn g s).2 = cntA s + 1)
    (hC : ∀ g s, cntC (ctx.critic_update_fn g s).2 = cntC s + 1)
    (hQ : ∀ g s, cntQ (ctx.q_update_fn g s).2 = cntQ s + 1)
    (heps : cfg.epochs = 2)
    (ls : OnPolicyLearnerState Obs Act AP CP QP OA OC OQ Key EnvState Info)
    (h0 : cntA ls.opt_states.actor_opt_state = 0 ∧
      cntC ls.opt_states.critic_opt_state = 0 ∧ cntQ ls.opt_states.q_opt_state = 0) :
    cntC (update_step ctx cfg ls).1.opt_states.critic_opt_state = 256
    ∧ cntQ (update_step ctx cfg ls).1.opt_states.q_opt_state = 256
    ∧ cntA (update_step ctx cfg ls).1.opt_states.actor_opt_state = 64 := by
  have hroll : ∀ n s,
      (scanN (fun s => env_step ctx s) s n).1.opt_states = s.opt_states :=
    fun n s => scanN_fst_proj _ (fun s => s.opt_states) (fun _ => rfl) n s
  refine ⟨?_, ?_, ?_⟩
  · show cntC (update_step ctx cfg ls).1.opt_states.critic_opt_state = 256
    simp only [update_step]
    rw [scanN_fst_count (update_epoch ctx cfg)
        (fun us => cntC us.2.1.critic_opt_state) 128
        (fun us => update_epoch_cntC ctx cfg cntC hsplit hC us)]
    simp [hroll, h0.2.1, heps]
  · show cntQ (update_step ctx cfg ls).1.opt_states.q_opt_state = 256
    simp only [update_step]
    rw [scanN_fst_count (update_epoch ctx cfg)
        (fun us => cntQ us.2.1.q_opt_state) 128
        (fun us => update_epoch_cntQ ctx cfg cntQ hsplit hQ us)]
    simp [hroll, h0.2.2, heps]
  · show cntA (update_step ctx cfg ls).1.opt_states.actor_opt_state = 64
    simp only [update_step]
    rw [scanN_fst_count (update_epoch ctx cfg)
        (fun us => cntA us.2.1.actor_opt_state) 32
        (fun us => update_epoch_cntA ctx cfg cntA hsplit hA us)]
    simp [hroll, h0.1, heps]

/-- C7: the flattened trajectory buffer is carried through the epoch
loop unchanged — each `_update_epoch` returns its input buffer, the
whole epoch scan returns the original flattened rollout buffer, the
environment state and final timestep of the output learner state are
exactly those produced by the rollout (the environment is not stepped
between epochs), and the episode metrics are read from the original
flattened rollout buffer. -/
theorem c7_buffer_unchanged
    (ctx : Ctx Obs Act AP CP QP OA OC OQ Key EnvState Info) (cfg : Config) :
    (∀ (us : ActorCriticQParams AP CP QP × ActorCriticQOptStates OA OC OQ ×
        List (PPOTransition Obs Act Info) × Key),
        (update_epoch ctx cfg us).1.2.2.1 = us.2.2.1)
    ∧ (∀ (n : ℕ) (us : ActorCriticQParams AP CP QP × ActorCriticQOptStates OA OC OQ ×
        List (PPOTransition Obs Act Info) × Key),
        (scanN (update_epoch ctx cfg) us n).1.2.2.1 = us.2.2.1)
    ∧ (∀ ls : OnPolicyLearnerState Obs Act AP CP QP OA OC OQ Key EnvState Info,
        (update_step ctx cfg ls).1.env_state =
          (scanN (fun s => env_step ctx s) ls cfg.rollout_length).1.env_state
        ∧ (update_step ctx cfg ls).1.last_timestep =
          (scanN (fun s => env_step ctx s) ls cfg.rollout_length).1.last_timestep
        ∧ (update_step ctx cfg ls).2.1 =
          ((scanN (fun s => env_step ctx s) ls cfg.rollout_length).2.flatten).map
            (fun t => t.info)) := by
  have hep : ∀ (us : ActorCriticQParams AP CP QP × ActorCriticQOptStates OA OC OQ ×
      List (PPOTransition Obs Act Info) × Key),
      (update_epoch ctx cfg us).1.2.2.1 = us.2.2.1 := fun us => rfl
  have hsc : ∀ (n : ℕ) us, (scanN (update_epoch ctx cfg) us n).1.2.2.1 = us.2.2.1 :=
    fun n us => scanN_fst_proj _ (fun us => us.2.2.1) hep n us
  refine ⟨hep, hsc, ?_⟩
  intro ls
  refine ⟨rfl, rfl, ?_⟩
  show ((scanN (update_epoch ctx cfg) _ cfg.epochs).1.2.2.1).map (fun t => t.info) = _
  rw [hsc]

/-- C8: each minibatch update touches only its own pathway: a critic/Q
minibatch step returns the incoming actor parameters and actor
optimizer state unchanged, and an actor minibatch step returns the
incoming critic and Q parameters and optimizer states unchanged. -/
theorem c8_pathway_isolation
    (ctx : Ctx Obs Act AP CP QP OA OC OQ Key EnvState Info) (cfg : Config) :
    (∀ (ts : ActorCriticQParams AP CP QP × ActorCriticQOptStates OA OC OQ × Key)
        (mb : List (PPOTransition Obs Act Info)),
        (update_critics ctx cfg ts mb).1.1.actor_params = ts.1.actor_params
        ∧ (update_critics ctx cfg ts mb).1.2.1.actor_opt_state = ts.2.1.actor_opt_state)
    ∧ (∀ (ts : ActorCriticQParams AP CP QP × ActorCriticQOptStates OA OC OQ × Key)
        (bi : List (PPOTransition Obs Act Info) × List ℚ),
        (update_actor ctx cfg ts bi).1.1.critic_params = ts.1.critic_params
        ∧ (update_actor ctx cfg ts bi).1.1.q_params = ts.1.q_params
        ∧ (update_actor ctx cfg ts bi).1.2.1.critic_opt_state = ts.2.1.critic_opt_state
        ∧ (update_actor ctx cfg ts bi).1.2.1.q_opt_state = ts.2.1.q_opt_state) :=
  ⟨fun ts mb => ⟨rfl, rfl⟩, fun ts bi => ⟨rfl, rfl, rfl, rfl⟩⟩

/-- C9: the update step is deterministic — it is a pure function of the
learner state (all randomness flows from the state's RNG key, the
environment is stepped through the pure `env_step` interface, and no
other state exists), so two invocations on equal learner states return
equal learner states, episode metrics and loss metrics. -/
theorem c9_determinism
    (ctx : Ctx Obs Act AP CP QP OA OC OQ Key EnvState Info) (cfg : Config) :
    ∀ ls1 ls2 : OnPolicyLearnerState Obs Act AP CP QP OA OC OQ Key EnvState Info,
      ls1 = ls2 → update_step ctx cfg ls1 = update_step ctx cfg ls2 := by
  intro ls1 ls2 h
  rw [h]

/-- C10: the loss metrics an update step returns contain only the
actor-phase entries: each critic/Q minibatch step packs only the
critic's `value_loss` (dropping `q_loss`, `q_error`, `q1_pred`), each
actor minibatch step packs `actor_loss` and `entropy`, each epoch
returns the actor scan's stacked metrics (overwriting the critic
scan's), and hence every per-epoch loss-metric dictionary returned by
`update_step` has exactly the keys `actor_loss, entropy`. -/
theorem c10_loss_metrics
    (ctx : Ctx Obs Act AP CP QP OA OC OQ Key EnvState Info) (cfg : Config) :
    (∀ (ts : ActorCriticQParams AP CP QP × ActorCriticQOptStates OA OC OQ × Key)
        (mb : List (PPOTransition Obs Act Info)),
        info_keys (update_critics ctx cfg ts mb).2 = ["value_loss"])
    ∧ (∀ (ts : ActorCriticQParams AP CP QP × ActorCriticQOptStates OA OC OQ × Key)
        (bi : List (PPOTransition Obs Act Info) × List ℚ),
        info_keys (update_actor ctx cfg ts bi).2 = ["actor_loss", "entropy"])
    ∧ (∀ (us : ActorCriticQParams AP CP QP × ActorCriticQOptStates OA OC OQ ×
        List (PPOTransition Obs Act Info) × Key),
        ((update_epoch ctx cfg us).2).map info_keys =
          List.replicate ((update_epoch ctx cfg us).2).length ["actor_loss", "entropy"])
    ∧ (∀ ls : OnPolicyLearnerState Obs Act AP CP QP OA OC OQ Key EnvState Info,
        ((update_step ctx cfg ls).2.2).map (fun el => el.map info_keys) =
          ((update_step ctx cfg ls).2.2).map
            (fun el => List.replicate el.length ["actor_loss", "entropy"])) := by
  have hcrit : ∀ (ts : ActorCriticQParams AP CP QP × ActorCriticQOptStates OA OC OQ × Key)
      (mb : List (PPOTransition Obs Act Info)),
      info_keys (update_critics ctx cfg ts mb).2 = ["value_loss"] := by
    intro ts mb
    show info_keys (pmean_info ctx.pleaf_device (pmean_info ctx.pleaf_batch _)) = _
    unfold info_keys
    rw [pmean_info_keys, pmean_info_keys]
    rfl
  have hact : ∀ (ts : ActorCriticQParams AP CP QP × ActorCriticQOptStates OA OC OQ × Key)
      (bi : List (PPOTransition Obs Act Info) × List ℚ),
      info_keys (update_actor ctx cfg ts bi).2 = ["actor_loss", "entropy"] := by
    intro ts bi
    show info_keys (pmean_info ctx.pleaf_device (pmean_info ctx.pleaf_batch _)) = _
    unfold info_keys
    rw [pmean_info_keys, pmean_info_keys]
    rfl
  have hepoch : ∀ (us : ActorCriticQParams AP CP QP × ActorCriticQOptStates OA OC OQ ×
      List (PPOTransition Obs Act Info) × Key),
      ((update_epoch ctx cfg us).2).map info_keys =
        List.replicate ((update_epoch ctx cfg us).2).length ["actor_loss", "entropy"] := by
    intro us
    refine map_eq_replicate _ _ _ ?_
    intro li hli
    have := scanl_snd_forall (update_actor ctx cfg)
      (fun y => info_keys y = ["actor_loss", "entropy"]) (fun s x => hact s x) _ _ li hli
    exact this
  refine ⟨hcrit, hact, hepoch, ?_⟩
  intro ls
  refine map_congr_mem _ _ _ ?_
  intro el hel
  have hforall := scanN_snd_forall (update_epoch ctx cfg)
    (fun y => y.map info_keys = List.replicate y.length ["actor_loss", "entropy"])
    (fun s => hepoch s) cfg.epochs _ el hel
  exact hforall

end ClaimTheorems2


section WitnessTheorems

set_option maxRecDepth 4000 in
/-- C2 counterexample: on the concrete minibatch `cmb2` actually drawn
from the two-transition buffer `ctb2` by the epoch-level sampler, the Q
loss the code computes (`0`, because the in-loss re-sample with key `1`
replaces the minibatch by 512 copies of `ct1`) differs from
`0.5 * mean((Q(obs, action) - target_q)^2)` evaluated over that
minibatch (`1/1024`): the claim as stated is false. -/
theorem c2_counterexample :
    (q_loss_fn baseCtx cfg2 () () () cmb2 1).1 ≠ q_loss_claim baseCtx cfg2 () () cmb2 1 := by
  have hmb : cmb2 = ct0 :: List.replicate 511 ct1 := by
    show sample baseCtx cfg2 ctb2 0 = _
    simp [sample, baseCtx, cfg2, ctb2, gatherIdx, List.map_replicate]
  have hres : sample baseCtx cfg2 cmb2 1 = List.replicate 512 ct1 := by
    rw [hmb]
    simp [sample, baseCtx, cfg2, gatherIdx, List.map_replicate]
  have hL : (q_loss_fn baseCtx cfg2 () () () cmb2 1).1 = 0 := by
    rw [q_loss_fn_eq, hres]
    simp [List.map_replicate, mean, List.sum_replicate, q_target_spec, b2q, ct1, baseCtx,
      cfg2, alpha]
  have hR : q_loss_claim baseCtx cfg2 () () cmb2 1 = 1 / 1024 := by
    rw [hmb]
    simp [q_loss_claim, q_target_spec, mean, List.map_replicate, List.sum_replicate, ct0, ct1,
      baseCtx, cfg2, b2q, alpha]
    norm_num
  rw [hL, hR]
  norm_num

/-- C4 counterexample: with the valid configuration
`rollout_length * num_envs = 1024` and a draw outcome whose indices
(`600`) all lie inside `[0, 1024)` as `randint` guarantees, the
re-sample performed inside the Q/actor losses on a 512-element
minibatch (itself drawn from the buffer by the epoch-level `sample`)
requests index `600` and therefore reads outside the bounds of the
array it indexes. -/
theorem c4_counterexample :
    (∀ i ∈ ctxB.randint 0 512 (cfgB.rollout_length * cfgB.num_envs),
        i < cfgB.rollout_length * cfgB.num_envs)
    ∧ ¬ sample_in_bounds ctxB cfgB ((sample ctxB cfgB ctbB 0).length) 0 := by
  have hridx : ctxB.randint 0 512 (cfgB.rollout_length * cfgB.num_envs) =
      List.replicate 512 600 := rfl
  constructor
  · intro i hi
    rw [hridx] at hi
    rw [List.eq_of_mem_replicate hi]
    decide
  · intro h
    have hlen : (sample ctxB cfgB ctbB 0).length = 512 := by
      show (gatherIdx ctbB (ctxB.randint 0 512 (cfgB.rollout_length * cfgB.num_envs))).length = 512
      rw [hridx]
      simp only [gatherIdx, List.length_map, List.length_replicate]
    have h600 := h 600 (by rw [hridx]; exact List.mem_replicate.mpr ⟨by decide, rfl⟩)
    rw [hlen] at h600
    omega

/-- C4 witness: the amended theorem applied at a concrete context whose
`randint` satisfies the range semantics, with a buffer of length
`2 = rollout_length * num_envs`: the epoch-level gather on the buffer is
in bounds. -/
theorem c4_witness :
    (0 < cfgC.rollout_length * cfgC.num_envs) ∧ sample_in_bounds ctxC cfgC ctb2.length 0 :=
  ⟨by decide,
    (c4_index_bounds_amended ctxC cfgC
        (fun _ n _ => List.length_replicate n 0)
        (fun _ n m hm i hi => by rw [List.eq_of_mem_replicate hi]; exact hm)
        (by decide)).2.1 ctb2 0 (by decide)⟩

/-- C6 witness: the counting theorem applied at the concrete context
whose optimizer transforms are bare counters, with `epochs = 2` and all
counters starting at zero: the output counters are 256, 256 and 64. -/
theorem c6_witness :
    ((cfg6.epochs = 2) ∧ ls6.opt_states.actor_opt_state = 0 ∧
      ls6.opt_states.critic_opt_state = 0 ∧ ls6.opt_states.q_opt_state = 0)
    ∧ (update_step baseCtx cfg6 ls6).1.opt_states.critic_opt_state = 256
    ∧ (update_step baseCtx cfg6 ls6).1.opt_states.q_opt_state = 256
    ∧ (update_step baseCtx cfg6 ls6).1.opt_states.actor_opt_state = 64 :=
  ⟨⟨rfl, rfl, rfl, rfl⟩,
    c6_optimizer_step_counts baseCtx cfg6 id id id
      (fun k n => List.length_replicate n k)
      (fun _ _ => rfl) (fun _ _ => rfl) (fun _ _ => rfl)
      rfl ls6 ⟨rfl, rfl, rfl⟩⟩

/-- C9 witness: the determinism theorem applied at a concrete context
and learner state. -/
theorem c9_witness :
    update_step baseCtx cfg6 ls6 = update_step baseCtx cfg6 ls6 :=
  c9_determinism baseCtx cfg6 ls6 ls6 rfl

end WitnessTheorems
